import Mathlib

/-
Verification of the client-side geospatial core of the make-space-for-art
dashboard.  The definitions below are shallow embeddings of the JavaScript
source: strings are Lean strings, JS numbers appearing in coordinates and
zoom levels are rationals, property bags are association lists, and the
React state handlers become explicit state-passing functions.  Each
definition's doc comment names the source function it embeds.
-/

/-! ## JavaScript string primitives

These model the handful of string operations the source uses
(toUpperCase, toLowerCase, trim, includes, and the `a || b` fallback on
strings).  They are written over the character list of the string so that
they compute by kernel reduction.  The source data is ASCII, where
Char.toUpper / Char.toLower / Char.isWhitespace agree with the JS
operations. -/

/-- Models JS String.prototype.toUpperCase (ASCII range). -/
def jsToUpper (s : String) : String := ⟨s.data.map Char.toUpper⟩

/-- Models JS String.prototype.toLowerCase (ASCII range). -/
def jsToLower (s : String) : String := ⟨s.data.map Char.toLower⟩

/-- Models JS String.prototype.trim: drop whitespace from both ends. -/
def jsTrim (s : String) : String :=
  ⟨((s.data.dropWhile Char.isWhitespace).reverse.dropWhile Char.isWhitespace).reverse⟩

/-- Models the JS expression `a || b` on strings: the empty string is the
only falsy string value. -/
def jsOr (a b : String) : String := if a = "" then b else a

/-- Helper for jsIncludes: substring containment on character lists. -/
def listContainsChars (needle : List Char) : List Char → Bool
  | [] => needle.isEmpty
  | c :: cs => needle.isPrefixOf (c :: cs) || listContainsChars needle cs

/-- Models JS String.prototype.includes (substring containment). -/
def jsIncludes (s pat : String) : Bool := listContainsChars pat.data s.data

/-- Property bags of GeoJSON features are open string-to-string maps with
inconsistently cased keys; we model them as association lists.  `getStr`
models the JS access pattern `props?.key` in the positions where the
source immediately coerces a missing value to the empty string (either
with `|| ''` or by feeding it to a falsy test), collapsing
undefined/absent to `""`. -/
def getStr : List (String × String) → String → String
  | [], _ => ""
  | (k, v) :: rest, key => if k = key then v else getStr rest key

/-! ## Geometry

GeoJSON geometries as consumed by src/src/components/Map.jsx.  A
coordinate is a JS array of numbers, modelled as `List ℚ` (index access
past the end of the array, which yields undefined in JS and is filtered
by the `val != null` checks of the source, is modelled by `List.get?`
returning none). -/

/-- GeoJSON geometry: Point / Polygon / MultiPolygon carry their raw
coordinate arrays; every other geometry type is collapsed into `other`,
which the source treats uniformly (it matches none of its type tests). -/
inductive Geometry where
  | point (coordinates : List ℚ)
  | polygon (coordinates : List (List (List ℚ)))
  | multiPolygon (coordinates : List (List (List (List ℚ))))
  | other
deriving DecidableEq

/-- Embeds `extractCoordinates` (Map.jsx lines 667-685): flattens a Point
to its single coordinate, a Polygon to all ring vertices in order, a
MultiPolygon to all rings of all parts in order, anything else to []. -/
def extractCoordinates : Geometry → List (List ℚ)
  | .point cs => [cs]
  | .polygon rings => rings.flatten
  | .multiPolygon polys => (polys.map List.flatten).flatten
  | .other => []

/-- Centroid computation shared by the Polygon/MultiPolygon branch of
`getMarkerCoordinates` (Map.jsx lines 697-711): average the non-null
first and second components of the extracted coordinates; if averaging
is impossible fall back to the first coordinate when it has length at
least 2, else null. -/
def centroidOfCoords (coords : List (List ℚ)) : Option (List ℚ) :=
  if coords.length > 0 then
    let lons := coords.filterMap (fun c => c.get? 0)
    let lats := coords.filterMap (fun c => c.get? 1)
    if lons.length > 0 ∧ lats.length > 0 then
      some [lons.sum / lons.length, lats.sum / lats.length]
    else
      match coords.head? with
      | some c0 => if c0.length ≥ 2 then some c0 else none
      | none => none
  else none

/-- Embeds `getMarkerCoordinates` (Map.jsx lines 688-715).  A missing
geometry (the `!geometry` guard) is `none`.  A Point returns its raw
coordinate array when it has length at least 2; Polygon / MultiPolygon
return the centroid-or-first-coordinate fallback; anything else null. -/
def getMarkerCoordinates : Option Geometry → Option (List ℚ)
  | none => none
  | some (.point cs) => if cs.length ≥ 2 then some cs else none
  | some (.polygon rings) => centroidOfCoords (extractCoordinates (.polygon rings))
  | some (.multiPolygon polys) => centroidOfCoords (extractCoordinates (.multiPolygon polys))
  | some .other => none

/-- Embeds `areCoordinatesSame` (Map.jsx lines 916-919): false when either
argument is null or shorter than 2; otherwise both axis differences must
be strictly under the tolerance. -/
def areCoordinatesSame (coords1 coords2 : Option (List ℚ)) (tolerance : ℚ) : Bool :=
  match coords1, coords2 with
  | some c1, some c2 =>
    if c1.length < 2 ∨ c2.length < 2 then false
    else decide (|c1.getD 0 0 - c2.getD 0 0| < tolerance)
      && decide (|c1.getD 1 0 - c2.getD 1 0| < tolerance)
  | _, _ => false

/-- `areCoordinatesSame` at its default tolerance 0.0001. -/
def areCoordinatesSameD (coords1 coords2 : Option (List ℚ)) : Bool :=
  areCoordinatesSame coords1 coords2 (1/10000)

/-- Result record of `calculateBounds`: a map center and zoom. -/
structure BoundsResult where
  longitude : ℚ
  latitude : ℚ
  zoom : ℚ
deriving DecidableEq

/-- Minimum of a list of rationals; `calculateBounds` only applies it to
non-empty lists (JS Math.min over a spread array). -/
def jsMin : List ℚ → ℚ
  | [] => 0
  | x :: xs => xs.foldl min x

/-- Maximum of a list of rationals; `calculateBounds` only applies it to
non-empty lists (JS Math.max over a spread array). -/
def jsMax : List ℚ → ℚ
  | [] => 0
  | x :: xs => xs.foldl max x

/-- Embeds `calculateBounds` (Map.jsx lines 741-768).  The input list
holds [lon, lat] coordinate pairs.  Zoom starts at 12 and is then
successively overwritten by the five threshold checks in source order. -/
def calculateBounds (coordinates : List (ℚ × ℚ)) : Option BoundsResult :=
  if coordinates.length = 0 then none
  else
    let lons := coordinates.map Prod.fst
    let lats := coordinates.map Prod.snd
    let minLon := jsMin lons
    let maxLon := jsMax lons
    let minLat := jsMin lats
    let maxLat := jsMax lats
    let centerLon := (minLon + maxLon) / 2
    let centerLat := (minLat + maxLat) / 2
    let lonDiff := maxLon - minLon
    let latDiff := maxLat - minLat
    let maxDiff := max lonDiff latDiff
    let zoom : ℚ := 12
    let zoom := if maxDiff > 1/5 then 11 else zoom
    let zoom := if maxDiff > 2/5 then 10 else zoom
    let zoom := if maxDiff > 4/5 then 9 else zoom
    let zoom := if maxDiff < 1/20 then 13 else zoom
    let zoom := if maxDiff < 1/50 then 14 else zoom
    some ⟨centerLon, centerLat, zoom⟩

/-- Zoom selection written the way the specification describes it: the
tightest matching threshold wins, i.e. the checks are consulted from the
most specific to the least specific.  This is the spec-side formulation
compared against the sequential-overwrite chain inside
`calculateBounds`. -/
def zoomSpecTightestFirst (d : ℚ) : ℚ :=
  if d < 1/50 then 14
  else if d < 1/20 then 13
  else if d > 4/5 then 9
  else if d > 2/5 then 10
  else if d > 1/5 then 11
  else 12

/-! ## Features and the filter / facet layer -/

/-- One GeoJSON-like feature: optional geometry plus a property bag.
A feature whose `properties` field is absent in JS is modelled with the
empty association list, matching the source's `feature.properties || {}`
and `feature.properties?.key` access patterns. -/
structure Feature where
  geometry : Option Geometry
  properties : List (String × String)
deriving DecidableEq

/-- Embeds `getSpaceType` (Map.jsx lines 629-641, identical copies in the
two App variants): classify the free-text type property, after the
case-variant fallback `props?.type || props?.Type || ''`, lowercasing
and trimming, by substring containment of "production" and
"presentation". -/
def getSpaceType (properties : List (String × String)) : String :=
  let ty := jsOr (getStr properties "type") (getStr properties "Type")
  let typeLower := jsTrim (jsToLower ty)
  if jsIncludes typeLower "production" && jsIncludes typeLower "presentation" then "both"
  else if jsIncludes typeLower "production" then "production"
  else if jsIncludes typeLower "presentation" then "presentation"
  else "unknown"

/-- The lowercased, trimmed free-text type of a feature, as computed at
the top of `getSpaceType`; used to state the classification property. -/
def typeTextOf (properties : List (String × String)) : String :=
  jsTrim (jsToLower (jsOr (getStr properties "type") (getStr properties "Type")))

/-- Embeds the `filteredData` predicate of the latest App variant
(src/unnamed/part_001 lines 57-78): city and neighborhood are extracted
through the case-variant fallback chain and trimmed, then compared
uppercased against the (uppercased, untrimmed) selection; the type
filter compares the derived space type against the selected type. -/
def filteredDataPred (selectedCity selectedNeighborhood selectedType : String)
    (f : Feature) : Bool :=
  let props := f.properties
  let city := jsTrim (jsOr (getStr props "city") (getStr props "City"))
  let neighborhood := jsTrim (jsOr (getStr props "neighborhood") (getStr props "Neighborhood"))
  if selectedCity ≠ "" ∧ jsToUpper city ≠ jsToUpper selectedCity then false
  else if selectedNeighborhood ≠ "" ∧ jsToUpper neighborhood ≠ jsToUpper selectedNeighborhood then
    false
  else if selectedType ≠ "" then
    let spaceType := getSpaceType props
    if selectedType = "both" ∧ spaceType ≠ "both" then false
    else if selectedType = "production" ∧ spaceType ≠ "production" then false
    else if selectedType = "presentation" ∧ spaceType ≠ "presentation" then false
    else if selectedType = "unknown" ∧ spaceType ≠ "unknown" then false
    else true
  else true

/-- Embeds the `filteredData` computation of src/unnamed/part_001 (the
sorting stage of the older App.jsx variant is not part of it). -/
def filteredData (data : List Feature) (selectedCity selectedNeighborhood selectedType : String) :
    List Feature :=
  data.filter (filteredDataPred selectedCity selectedNeighborhood selectedType)

/-- Embeds the keep-predicate of the `loadData` filter of
src/unnamed/part_001 lines 20-29: drop features whose (fallback-chain)
city uppercases-and-trims to WATERTOWN or whose (fallback-chain) name
uppercases-and-trims to one of the three excluded names. -/
def loadDataKeep (f : Feature) : Bool :=
  let city := jsOr (getStr f.properties "city") (getStr f.properties "City")
  let cityUpper := jsTrim (jsToUpper city)
  let name := jsOr (getStr f.properties "name") (getStr f.properties "Name")
  let nameUpper := jsTrim (jsToUpper name)
  decide (cityUpper ≠ "WATERTOWN") && decide (nameUpper ≠ "FIRST HIGHLAND MANAGEMENT")
    && decide (nameUpper ≠ "HINGHAM") && decide (nameUpper ≠ "SALEM")

/-- Embeds the feature filter applied inside `loadData` of
src/unnamed/part_001 before the dataset is stored. -/
def loadDataFilter (features : List Feature) : List Feature :=
  features.filter loadDataKeep

/-- Spec-side description of the features the initial load removes: city
case-insensitively trim-equals WATERTOWN, or name case-insensitively
trim-equals one of the three excluded names. -/
def excludedByLoad (f : Feature) : Prop :=
  jsTrim (jsToUpper (jsOr (getStr f.properties "city") (getStr f.properties "City")))
      = "WATERTOWN"
    ∨ jsTrim (jsToUpper (jsOr (getStr f.properties "name") (getStr f.properties "Name")))
        ∈ (["FIRST HIGHLAND MANAGEMENT", "HINGHAM", "SALEM"] : List String)

instance (f : Feature) : Decidable (excludedByLoad f) := by
  unfold excludedByLoad; infer_instance

/-- JS `[...new Set(xs)]`: deduplicate keeping the first occurrence. -/
def dedupFirst (l : List String) : List String :=
  go [] l
where
  /-- Worker carrying the set of already-seen values. -/
  go (seen : List String) : List String → List String
    | [] => []
    | x :: xs => if x ∈ seen then go seen xs else x :: go (x :: seen) xs

/-- Code-unit order on strings, the default comparator of JS
Array.prototype.sort; on the data in play it is plain lexicographic
order on characters. -/
def strLe (a b : String) : Bool := go a.data b.data
where
  /-- Lexicographic comparison of character lists by code point. -/
  go : List Char → List Char → Bool
    | [], _ => true
    | _ :: _, [] => false
    | x :: xs, y :: ys =>
      if x.toNat < y.toNat then true
      else if y.toNat < x.toNat then false
      else go xs ys

/-- Insert into a sorted list, keeping earlier elements first on ties
(stability as in JS sort). -/
def insertSorted (x : String) : List String → List String
  | [] => [x]
  | y :: ys => if strLe y x then y :: insertSorted x ys else x :: y :: ys

/-- Models JS Array.prototype.sort with the default string comparator. -/
def sortStr (l : List String) : List String := l.foldr insertSorted []

/-- Embeds the `cities` facet of src/unnamed/part_001 lines 81-89:
distinct truthy raw city values, minus WATERTOWN and HINGHAM
(case-insensitively, after trimming), sorted. -/
def cities (data : List Feature) : List String :=
  sortStr ((dedupFirst (data.filterMap fun f =>
      let c := getStr f.properties "city"
      if c = "" then none else some c)).filter
    fun city =>
      let cityUpper := jsTrim (jsToUpper city)
      decide (cityUpper ≠ "WATERTOWN") && decide (cityUpper ≠ "HINGHAM"))

/-- Embeds the `neighborhoods` facet (identical in all three App
variants, e.g. src/src/App.jsx lines 112-125): restrict the dataset to
the selected city when one is set (comparing uppercased-and-trimmed city
values), then collect the distinct truthy neighborhood values and sort
them. -/
def neighborhoods (data : List Feature) (selectedCity : String) : List String :=
  let filtered :=
    if selectedCity ≠ "" then
      data.filter fun f =>
        jsTrim (jsToUpper (getStr f.properties "city"))
          = jsTrim (jsToUpper selectedCity)
    else data
  sortStr (dedupFirst (filtered.filterMap fun f =>
    let n := getStr f.properties "neighborhood"
    if n = "" then none else some n))

/-- The facet-relevant slice of the App component's state. -/
structure AppState where
  data : List Feature
  selectedCity : String
  selectedNeighborhood : String
deriving DecidableEq

/-- Embeds the neighborhood-clearing effect (src/src/App.jsx lines
128-138, identical in the other variants): when both a city and a
neighborhood are selected and the freshly derived neighborhood facet
does not contain the selected neighborhood up to case and trimming, the
neighborhood selection is reset to the empty string. -/
def clearNeighborhoodEffect (st : AppState) : AppState :=
  if st.selectedCity ≠ "" ∧ st.selectedNeighborhood ≠ "" then
    let availableNeighborhoods := neighborhoods st.data st.selectedCity
    let neighborhoodExists := availableNeighborhoods.any fun n =>
      jsTrim (jsToUpper n) = jsTrim (jsToUpper st.selectedNeighborhood)
    if !neighborhoodExists then { st with selectedNeighborhood := "" } else st
  else st

/-! ## Selection and overlap resolver (Map.jsx) -/

/-- The resolver-relevant slice of the Map component's state.
`reported` is the last argument passed to the `onMarkerSelect` callback,
i.e. the externally-reported selected feature (the App stores it and
feeds it back as the `selectedFeature` prop). -/
structure MapState where
  selectedMarker : Option Feature
  overlappingFeatures : List Feature
  selectedOverlapIndex : Nat
  reported : Option Feature
deriving DecidableEq

/-- The Map state before any interaction. -/
def initialMapState : MapState := ⟨none, [], 0, none⟩

/-- All features of the dataset whose marker coordinates equal the given
anchor within the default tolerance, in dataset order: the
`data.filter` scan shared by `handleMarkerClick` and the
selected-feature sync effect (the `coords &&` truthiness guard is the
none case of `areCoordinatesSame`). -/
def overlapGroup (data : List Feature) (anchor : List ℚ) : List Feature :=
  data.filter fun f =>
    areCoordinatesSameD (getMarkerCoordinates f.geometry) (some anchor)

/-- Embeds `handleMarkerClick` (Map.jsx lines 921-950).  A feature with
no resolvable anchor coordinate returns early with the state untouched.
Otherwise the overlap group at the clicked anchor is computed; with more
than one member, the group is stored with index 0 and its first member
becomes both the selected marker and the reported feature; with a single
member the clicked feature itself is selected and reported with no
group. -/
def handleMarkerClick (feature : Feature) (data : List Feature) (st : MapState) : MapState :=
  match getMarkerCoordinates feature.geometry with
  | none => st
  | some clickedCoords =>
    let overlapping := overlapGroup data clickedCoords
    if overlapping.length > 1 then
      { selectedMarker := overlapping.head?
        overlappingFeatures := overlapping
        selectedOverlapIndex := 0
        reported := overlapping.head? }
    else
      { selectedMarker := some feature
        overlappingFeatures := []
        selectedOverlapIndex := 0
        reported := some feature }

/-- Embeds the selectedFeature sync effect (Map.jsx lines 953-990),
restricted to the resolver state (the viewport pan of lines 976-984
touches only the view state, which is not part of `MapState`).  The
feature identity test `f === selectedFeature` of the findIndex call is
modelled by structural equality; `index >= 0 ? index : 0` is the
`getD 0`. -/
def syncSelectedFeature (selectedFeature : Option Feature) (data : List Feature)
    (st : MapState) : MapState :=
  match selectedFeature with
  | some sf =>
    let st1 := { st with selectedMarker := some sf }
    match getMarkerCoordinates sf.geometry with
    | some coords =>
      let overlapping := overlapGroup data coords
      if overlapping.length > 1 then
        let index := (overlapping.findIdx? (fun f => f = sf)).getD 0
        { st1 with overlappingFeatures := overlapping, selectedOverlapIndex := index }
      else
        { st1 with overlappingFeatures := [], selectedOverlapIndex := 0 }
    | none => st1
  | none => { st with overlappingFeatures := [], selectedOverlapIndex := 0 }

/-- One full marker-click round trip: the click handler runs, and if it
reported a new feature through `onMarkerSelect`, React re-runs the sync
effect with the new `selectedFeature` prop. -/
def clickThenSync (feature : Feature) (data : List Feature) (st : MapState) : MapState :=
  let st1 := handleMarkerClick feature data st
  if st1.reported = st.reported then st1
  else syncSelectedFeature st1.reported data st1

/-- Embeds the popup next-button handler (Map.jsx lines 1307-1328).  The
button is rendered only when `hasMultiple`, i.e. the overlap group has
more than one member, in which case `featuresToShow` is the overlap
group itself; the new index is the old index plus one modulo the group
size, and the feature at the new index becomes the selected marker and
is reported through `onMarkerSelect`. -/
def cycleNext (st : MapState) : MapState :=
  if st.overlappingFeatures.length > 1 then
    let newIndex := (st.selectedOverlapIndex + 1) % st.overlappingFeatures.length
    { st with
      selectedOverlapIndex := newIndex
      selectedMarker := st.overlappingFeatures.get? newIndex
      reported := st.overlappingFeatures.get? newIndex }
  else st

/-! ## Helper lemmas -/

theorem mem_dedupFirst_go (x : String) :
    ∀ (l seen : List String), x ∈ dedupFirst.go seen l ↔ x ∈ l ∧ x ∉ seen := by
  intro l
  induction l with
  | nil => intro seen; simp [dedupFirst.go]
  | cons y ys ih =>
    intro seen
    by_cases hy : y ∈ seen
    · simp only [dedupFirst.go, if_pos hy, ih, List.mem_cons]
      constructor
      · rintro ⟨h1, h2⟩; exact ⟨Or.inr h1, h2⟩
      · rintro ⟨h1 | h1, h2⟩
        · exact absurd (h1 ▸ hy) h2
        · exact ⟨h1, h2⟩
    · simp only [dedupFirst.go, if_neg hy, List.mem_cons, ih, List.mem_cons]
      by_cases hxy : x = y
      · subst hxy; simp [hy]
      · simp [hxy]

theorem mem_dedupFirst (x : String) (l : List String) : x ∈ dedupFirst l ↔ x ∈ l := by
  simpa using mem_dedupFirst_go x l []

theorem mem_insertSorted (x y : String) :
    ∀ l : List String, x ∈ insertSorted y l ↔ x = y ∨ x ∈ l := by
  intro l
  induction l with
  | nil => simp [insertSorted]
  | cons z zs ih =>
    by_cases h : strLe z y = true
    · simp only [insertSorted, if_pos h, List.mem_cons, ih]
      tauto
    · simp only [insertSorted, if_neg h, List.mem_cons]

theorem mem_sortStr (x : String) : ∀ l : List String, x ∈ sortStr l ↔ x ∈ l := by
  intro l
  induction l with
  | nil => simp [sortStr]
  | cons y ys ih =>
    show x ∈ insertSorted y (sortStr ys) ↔ _
    rw [mem_insertSorted, ih, List.mem_cons]

/-! ## Claim theorems -/

/-- C6: for all coordinate pairs a and b, areCoordinatesSame holds exactly
when the absolute difference on both axes is under the tolerance
(default 0.0001); concretely it accepts ([1,2], [1.00005,2.00004]) and
rejects ([1,2], [1.001,2]). -/
theorem areCoordinatesSame_iff_axes :
    (∀ (tolerance a0 a1 b0 b1 : ℚ),
      areCoordinatesSame (some [a0, a1]) (some [b0, b1]) tolerance = true ↔
        |a0 - b0| < tolerance ∧ |a1 - b1| < tolerance) ∧
    areCoordinatesSameD (some [1, 2]) (some [1.00005, 2.00004]) = true ∧
    areCoordinatesSameD (some [1, 2]) (some [1.001, 2]) = false := by
  refine ⟨?_, ?_, ?_⟩
  · intro tolerance a0 a1 b0 b1
    simp [areCoordinatesSame]
  · simp [areCoordinatesSameD, areCoordinatesSame, abs_lt]
    norm_num
  · simp [areCoordinatesSameD, areCoordinatesSame, abs_lt]
    norm_num

/-- C8: the derived space type is "both" when the lowercased trimmed
free-text type contains both "production" and "presentation",
"production" when it contains only "production", "presentation" when it
contains only "presentation", and "unknown" otherwise; the three
concrete examples of the specification evaluate as stated. -/
theorem getSpaceType_classification :
    (∀ props : List (String × String),
      (jsIncludes (typeTextOf props) "production" = true ∧
          jsIncludes (typeTextOf props) "presentation" = true →
        getSpaceType props = "both") ∧
      (jsIncludes (typeTextOf props) "production" = true ∧
          jsIncludes (typeTextOf props) "presentation" = false →
        getSpaceType props = "production") ∧
      (jsIncludes (typeTextOf props) "production" = false ∧
          jsIncludes (typeTextOf props) "presentation" = true →
        getSpaceType props = "presentation") ∧
      (jsIncludes (typeTextOf props) "production" = false ∧
          jsIncludes (typeTextOf props) "presentation" = false →
        getSpaceType props = "unknown")) ∧
    getSpaceType [("type", "Production and Presentation space")] = "both" ∧
    getSpaceType [("type", "Presentation only")] = "presentation" ∧
    getSpaceType [] = "unknown" := by
  refine ⟨?_, by decide, by decide, by decide⟩
  intro props
  have h : getSpaceType props =
      (if jsIncludes (typeTextOf props) "production" && jsIncludes (typeTextOf props) "presentation"
        then "both"
        else if jsIncludes (typeTextOf props) "production" then "production"
        else if jsIncludes (typeTextOf props) "presentation" then "presentation"
        else "unknown") := rfl
  rcases h1 : jsIncludes (typeTextOf props) "production" <;>
    rcases h2 : jsIncludes (typeTextOf props) "presentation" <;>
      simp [h, h1, h2]

/-- Witness for C8: a free-text type containing only "production"
(supplied through the case-variant Type key) classifies as
"production". -/
theorem getSpaceType_classification_witness :
    getSpaceType [("Type", "Production space")] = "production" :=
  (getSpaceType_classification.1 [("Type", "Production space")]).2.1 ⟨by decide, by decide⟩

/-- C10: a marker click on a feature with no resolvable anchor coordinate
performs no state update at all: the selected marker, the overlap group
and the overlap index are all left unchanged. -/
theorem handleMarkerClick_null_anchor_noop :
    ∀ (f : Feature) (data : List Feature) (st : MapState),
      getMarkerCoordinates f.geometry = none → handleMarkerClick f data st = st := by
  intro f data st h
  unfold handleMarkerClick
  rw [h]

/-- Witness for C10: clicking a feature whose geometry is an unsupported
type leaves the initial state untouched. -/
theorem handleMarkerClick_null_anchor_noop_witness :
    handleMarkerClick ⟨some .other, [("name", "no anchor")]⟩ [] initialMapState
      = initialMapState :=
  handleMarkerClick_null_anchor_noop _ _ _ rfl

/-- C4: calculateBounds returns null on empty input; on a single
coordinate it returns that coordinate as center with zoom 14; and on any
non-empty list it returns the bounding-box midpoint as center together
with the zoom obtained by letting the tightest matching threshold win
(the sequential-overwrite chain of the source computes exactly the
tightest-first selection). -/
theorem calculateBounds_spec :
    calculateBounds [] = none ∧
    (∀ lon lat : ℚ, calculateBounds [(lon, lat)] = some ⟨lon, lat, 14⟩) ∧
    (∀ cs : List (ℚ × ℚ), cs ≠ [] →
      calculateBounds cs = some
        ⟨(jsMin (cs.map Prod.fst) + jsMax (cs.map Prod.fst)) / 2,
         (jsMin (cs.map Prod.snd) + jsMax (cs.map Prod.snd)) / 2,
         zoomSpecTightestFirst
           (max (jsMax (cs.map Prod.fst) - jsMin (cs.map Prod.fst))
                (jsMax (cs.map Prod.snd) - jsMin (cs.map Prod.snd)))⟩) := by
  have h3 : ∀ cs : List (ℚ × ℚ), cs ≠ [] →
      calculateBounds cs = some
        ⟨(jsMin (cs.map Prod.fst) + jsMax (cs.map Prod.fst)) / 2,
         (jsMin (cs.map Prod.snd) + jsMax (cs.map Prod.snd)) / 2,
         zoomSpecTightestFirst
           (max (jsMax (cs.map Prod.fst) - jsMin (cs.map Prod.fst))
                (jsMax (cs.map Prod.snd) - jsMin (cs.map Prod.snd)))⟩ := by
    intro cs h
    have hlen : ¬ cs.length = 0 := by
      simpa [List.length_eq_zero] using h
    unfold calculateBounds zoomSpecTightestFirst
    rw [if_neg hlen]
  refine ⟨rfl, ?_, h3⟩
  intro lon lat
  rw [h3 [(lon, lat)] (by simp)]
  simp only [List.map_cons, List.map_nil, jsMin, jsMax, List.foldl_nil, sub_self, max_self]
  have h14 : zoomSpecTightestFirst 0 = 14 := by norm_num [zoomSpecTightestFirst]
  rw [h14]
  have hlon : (lon + lon) / 2 = lon := by ring
  have hlat : (lat + lat) / 2 = lat := by ring
  rw [hlon, hlat]

/-- Witness for C4: the bounding box of (0,0) and (3,4) is centered at
(3/2, 2) and its larger span 4 exceeds 0.8, giving zoom 9. -/
theorem calculateBounds_spec_witness :
    calculateBounds [(0, 0), (3, 4)] = some ⟨3/2, 2, 9⟩ := by
  have h := calculateBounds_spec.2.2 [(0, 0), (3, 4)] (by decide)
  rw [h]
  norm_num [jsMin, jsMax, zoomSpecTightestFirst]

theorem cycleNext_overlapping_eq (st : MapState) :
    (cycleNext st).overlappingFeatures = st.overlappingFeatures := by
  unfold cycleNext
  split <;> rfl

theorem cycleNext_iterate (k : Nat) :
    ∀ st : MapState, 1 < st.overlappingFeatures.length →
      st.selectedOverlapIndex < st.overlappingFeatures.length →
      (cycleNext^[k] st).overlappingFeatures = st.overlappingFeatures ∧
      (cycleNext^[k] st).selectedOverlapIndex
        = (st.selectedOverlapIndex + k) % st.overlappingFeatures.length := by
  induction k with
  | zero =>
    intro st h1 h2
    simpa using (Nat.mod_eq_of_lt h2).symm
  | succ k ih =>
    intro st h1 h2
    have hn : 0 < st.overlappingFeatures.length := by omega
    have hstep : cycleNext st =
        { st with
          selectedOverlapIndex := (st.selectedOverlapIndex + 1) % st.overlappingFeatures.length
          selectedMarker := st.overlappingFeatures.get?
            ((st.selectedOverlapIndex + 1) % st.overlappingFeatures.length)
          reported := st.overlappingFeatures.get?
            ((st.selectedOverlapIndex + 1) % st.overlappingFeatures.length) } := by
      unfold cycleNext
      rw [if_pos h1]
    have h1' : 1 < (cycleNext st).overlappingFeatures.length := by
      rw [cycleNext_overlapping_eq]; exact h1
    have h2' : (cycleNext st).selectedOverlapIndex < (cycleNext st).overlappingFeatures.length := by
      rw [cycleNext_overlapping_eq, hstep]
      exact Nat.mod_lt _ hn
    rw [Function.iterate_succ_apply]
    obtain ⟨ha, hb⟩ := ih (cycleNext st) h1' h2'
    rw [cycleNext_overlapping_eq] at ha
    refine ⟨ha, ?_⟩
    rw [hb, cycleNext_overlapping_eq, hstep]
    show ((st.selectedOverlapIndex + 1) % st.overlappingFeatures.length + k)
        % st.overlappingFeatures.length = _
    rw [Nat.mod_add_mod]
    congr 1
    omega

/-- C5: with an overlap group of size N greater than one, cycle-next
advances the current index by one modulo N, reports the feature at the
new index through onMarkerSelect, and cycling N times from any in-range
index returns to that index. -/
theorem cycleNext_spec :
    ∀ st : MapState, 1 < st.overlappingFeatures.length →
      (cycleNext st).selectedOverlapIndex
        = (st.selectedOverlapIndex + 1) % st.overlappingFeatures.length ∧
      (cycleNext st).reported
        = st.overlappingFeatures.get?
            ((st.selectedOverlapIndex + 1) % st.overlappingFeatures.length) ∧
      (st.selectedOverlapIndex < st.overlappingFeatures.length →
        (cycleNext^[st.overlappingFeatures.length] st).selectedOverlapIndex
          = st.selectedOverlapIndex) := by
  intro st h1
  refine ⟨?_, ?_, ?_⟩
  · unfold cycleNext; rw [if_pos h1]
  · unfold cycleNext; rw [if_pos h1]
  · intro h2
    rw [(cycleNext_iterate st.overlappingFeatures.length st h1 h2).2,
      Nat.add_mod_right, Nat.mod_eq_of_lt h2]

/-- Witness for C5: on a concrete overlap group of three features at
index 0, cycling next three times returns to index 0. -/
theorem cycleNext_spec_witness :
    (cycleNext^[3] ⟨none, [⟨none, [("name", "F1")]⟩, ⟨none, [("name", "F2")]⟩,
        ⟨none, [("name", "F3")]⟩], 0, none⟩).selectedOverlapIndex = 0 :=
  (cycleNext_spec ⟨none, [⟨none, [("name", "F1")]⟩, ⟨none, [("name", "F2")]⟩,
    ⟨none, [("name", "F3")]⟩], 0, none⟩ (by decide)).2.2 (by decide)

/-- C7: every neighborhood derived under a city filter is also derived
under the empty city filter. -/
theorem neighborhoods_subset :
    ∀ (data : List Feature) (city x : String),
      x ∈ neighborhoods data city → x ∈ neighborhoods data "" := by
  intro data city x hx
  unfold neighborhoods at hx ⊢
  rw [mem_sortStr, mem_dedupFirst] at hx ⊢
  simp only [if_neg (by simp : ¬ ("" : String) ≠ "")]
  by_cases hc : city ≠ ""
  · rw [if_pos hc] at hx
    exact ((List.filter_sublist data).filterMap _).subset hx
  · rw [if_neg hc] at hx
    exact hx

/-- Witness for C7: a neighborhood of Cambridge is in the unfiltered
neighborhood facet. -/
theorem neighborhoods_subset_witness :
    "Inman Square" ∈ neighborhoods
      [⟨none, [("city", "Cambridge"), ("neighborhood", "Inman Square")]⟩] "" :=
  neighborhoods_subset _ "Cambridge" _ (by decide)

/-- Counterexample for C3: with no city selected, a changed dataset does
not re-validate the neighborhood selection.  The derived neighborhood
set of the empty dataset is empty, so the selected neighborhood is not
present in it case-insensitively, yet the effect leaves the selection
untouched instead of clearing it. -/
theorem clearNeighborhoodEffect_counterexample :
    clearNeighborhoodEffect ⟨[], "", "Inman Square"⟩ = ⟨[], "", "Inman Square"⟩ ∧
    ((neighborhoods ([] : List Feature) "").any fun n =>
      jsTrim (jsToUpper n) = jsTrim (jsToUpper "Inman Square")) = false := by
  constructor
  · rfl
  · rfl

/-- C3 (amended): the re-validation runs only while a city is selected.
Whenever a city is selected, after the effect runs the neighborhood
selection is either empty or case-insensitively present in the
neighborhood set derived from that city; data and city selection are
never touched by the effect. -/
theorem clearNeighborhoodEffect_spec :
    ∀ st : AppState, st.selectedCity ≠ "" →
      (clearNeighborhoodEffect st).data = st.data ∧
      (clearNeighborhoodEffect st).selectedCity = st.selectedCity ∧
      ((clearNeighborhoodEffect st).selectedNeighborhood = "" ∨
        ((neighborhoods st.data st.selectedCity).any fun n =>
          jsTrim (jsToUpper n)
            = jsTrim (jsToUpper (clearNeighborhoodEffect st).selectedNeighborhood)) = true) := by
  intro st hc
  by_cases hn : st.selectedNeighborhood = ""
  · have h1 : clearNeighborhoodEffect st = st := by
      unfold clearNeighborhoodEffect
      rw [if_neg (by simp [hn])]
    rw [h1]
    exact ⟨rfl, rfl, Or.inl hn⟩
  · unfold clearNeighborhoodEffect
    rw [if_pos ⟨hc, hn⟩]
    by_cases hex : ((neighborhoods st.data st.selectedCity).any fun n =>
        jsTrim (jsToUpper n) = jsTrim (jsToUpper st.selectedNeighborhood)) = true
    · rw [if_neg (by simp [hex])]
      exact ⟨rfl, rfl, Or.inr hex⟩
    · rw [if_pos (by simp [Bool.not_eq_true] at hex ⊢; exact hex)]
      exact ⟨rfl, rfl, Or.inl rfl⟩

/-- Witness for C3 (amended): city Boston is selected while the selected
neighborhood Inman Square belongs to Cambridge; after the effect the
neighborhood selection is empty or present, and here it is in fact
cleared. -/
theorem clearNeighborhoodEffect_spec_witness :
    (clearNeighborhoodEffect ⟨[⟨none, [("city", "Boston"), ("neighborhood", "Roxbury")]⟩,
        ⟨none, [("city", "Cambridge"), ("neighborhood", "Inman Square")]⟩],
        "Boston", "Inman Square"⟩).selectedNeighborhood = "" ∨
      ((neighborhoods
          [⟨none, [("city", "Boston"), ("neighborhood", "Roxbury")]⟩,
           ⟨none, [("city", "Cambridge"), ("neighborhood", "Inman Square")]⟩] "Boston").any fun n =>
        jsTrim (jsToUpper n)
          = jsTrim (jsToUpper (clearNeighborhoodEffect
              ⟨[⟨none, [("city", "Boston"), ("neighborhood", "Roxbury")]⟩,
                ⟨none, [("city", "Cambridge"), ("neighborhood", "Inman Square")]⟩],
                "Boston", "Inman Square"⟩).selectedNeighborhood)) = true :=
  (clearNeighborhoodEffect_spec _ (by decide)).2.2

/-- Spec-side equality up to case and surrounding whitespace: both values
are trimmed and case-folded before comparison. -/
def eqUpToCaseAndTrim (a b : String) : Bool :=
  decide (jsToUpper (jsTrim a) = jsToUpper (jsTrim b))

/-- Counterexample for C2: the filter case-folds the selection value but
does not trim it.  A feature whose city is "Boston" and a selection
" Boston" are equal up to case and surrounding whitespace, yet the
filter rejects the feature. -/
theorem filteredDataPred_counterexample :
    eqUpToCaseAndTrim "Boston" " Boston" = true ∧
    filteredDataPred " Boston" "" "" ⟨none, [("city", "Boston")]⟩ = false := by
  constructor
  · rfl
  · rfl

/-- C2 (amended): with no type filter active, the filter extracts city and
neighborhood through the case-variant key fallback chains, trims and
case-folds the extracted value, and compares it against the case-folded
but untrimmed selection: a feature passes if and only if each active
selection equals the trimmed feature value up to case only. -/
theorem filteredDataPred_match_spec :
    ∀ (g : Option Geometry) (props : List (String × String)) (selC selN : String),
      filteredDataPred selC selN "" ⟨g, props⟩ = true ↔
        ((selC ≠ "" →
            jsToUpper (jsTrim (jsOr (getStr props "city") (getStr props "City")))
              = jsToUpper selC) ∧
         (selN ≠ "" →
            jsToUpper (jsTrim (jsOr (getStr props "neighborhood")
                (getStr props "Neighborhood")))
              = jsToUpper selN)) := by
  intro g props selC selN
  unfold filteredDataPred
  split_ifs
  all_goals simp_all
  all_goals tauto

/-- Witness for C2 (amended): the selection "BOSTON" matches a feature
whose raw city value is " Boston " after trimming and case folding. -/
theorem filteredDataPred_match_spec_witness :
    filteredDataPred "BOSTON" "" "" ⟨none, [("city", " Boston ")]⟩ = true :=
  (filteredDataPred_match_spec none [("city", " Boston ")] "BOSTON" "").mpr (by decide)

/-- C9: the initial load keeps exactly the fetched features that are not
excluded (city WATERTOWN, or name FIRST HIGHLAND MANAGEMENT / HINGHAM /
SALEM, case-insensitively after trimming); every feature of any filtered
view over the loaded data is non-excluded (markers and the table render
from such filtered views); and the cities facet never contains
WATERTOWN or HINGHAM. -/
theorem loadDataFilter_spec :
    (∀ (fs : List Feature) (f : Feature),
      f ∈ loadDataFilter fs ↔ f ∈ fs ∧ ¬ excludedByLoad f) ∧
    (∀ (fs : List Feature) (selC selN selT : String) (f : Feature),
      f ∈ filteredData (loadDataFilter fs) selC selN selT → ¬ excludedByLoad f) ∧
    (∀ (d : List Feature) (c : String), c ∈ cities d →
      jsTrim (jsToUpper c) ≠ "WATERTOWN" ∧ jsTrim (jsToUpper c) ≠ "HINGHAM") := by
  have h1 : ∀ (fs : List Feature) (f : Feature),
      f ∈ loadDataFilter fs ↔ f ∈ fs ∧ ¬ excludedByLoad f := by
    intro fs f
    rw [loadDataFilter, List.mem_filter]
    simp only [loadDataKeep, excludedByLoad, Bool.and_eq_true, decide_eq_true_eq,
      List.mem_cons, List.mem_singleton, List.not_mem_nil]
    tauto
  refine ⟨h1, ?_, ?_⟩
  · intro fs selC selN selT f hf
    rw [filteredData, List.mem_filter] at hf
    exact ((h1 fs f).mp hf.1).2
  · intro d c hc
    rw [cities, mem_sortStr, List.mem_filter] at hc
    have := hc.2
    simp only [Bool.and_eq_true, decide_eq_true_eq] at this
    exact this

/-- Witness for C9: a Boston feature survives the load filter, appears in
the unfiltered view over the loaded data, and is therefore
non-excluded. -/
theorem loadDataFilter_spec_witness :
    ¬ excludedByLoad ⟨none, [("city", "Boston")]⟩ :=
  loadDataFilter_spec.2.1 [⟨none, [("city", "Boston")]⟩] "" "" ""
    ⟨none, [("city", "Boston")]⟩ (by decide)

/-- Feature A of the C1 scenario: first in dataset order at the shared
coordinate. -/
def featA : Feature := ⟨some (.point [0, 0]), [("name", "A")]⟩

/-- Feature B of the C1 scenario: the clicked feature, second in dataset
order at the shared coordinate. -/
def featB : Feature := ⟨some (.point [0, 0]), [("name", "B")]⟩

/-- The two-feature dataset of the C1 scenario, both features sharing one
anchor coordinate. -/
def twoColocated : List Feature := [featA, featB]

theorem areCoordinatesSameD_zero :
    areCoordinatesSameD (some [(0 : ℚ), 0]) (some [(0 : ℚ), 0]) = true := by
  unfold areCoordinatesSameD areCoordinatesSame
  norm_num

theorem overlapGroup_twoColocated : overlapGroup twoColocated [0, 0] = [featA, featB] := by
  unfold overlapGroup twoColocated
  rw [List.filter_cons, List.filter_cons, List.filter_nil]
  rw [show getMarkerCoordinates featA.geometry = some [(0 : ℚ), 0] from rfl,
    show getMarkerCoordinates featB.geometry = some [(0 : ℚ), 0] from rfl,
    areCoordinatesSameD_zero]
  rfl

theorem handleMarkerClick_of_anchor (f : Feature) (data : List Feature) (st : MapState)
    (c : List ℚ) (h1 : getMarkerCoordinates f.geometry = some c)
    (h2 : (overlapGroup data c).length > 1) :
    handleMarkerClick f data st =
      ⟨(overlapGroup data c).head?, overlapGroup data c, 0, (overlapGroup data c).head?⟩ := by
  simp only [handleMarkerClick, h1]
  rw [if_pos h2]

theorem clickThenSync_twoColocated :
    clickThenSync featB twoColocated initialMapState
      = ⟨some featA, [featA, featB], 0, some featA⟩ := by
  have hclick : handleMarkerClick featB twoColocated initialMapState
      = ⟨some featA, [featA, featB], 0, some featA⟩ := by
    rw [handleMarkerClick_of_anchor featB twoColocated initialMapState [0, 0] rfl
      (by rw [overlapGroup_twoColocated]; decide)]
    rw [overlapGroup_twoColocated]
    rfl
  unfold clickThenSync
  rw [hclick]
  rw [if_neg (by decide)]
  show (if (overlapGroup twoColocated [0, 0]).length > 1 then
      ({ selectedMarker := some featA,
         overlappingFeatures := overlapGroup twoColocated [0, 0],
         selectedOverlapIndex :=
           ((overlapGroup twoColocated [0, 0]).findIdx? fun f => f = featA).getD 0,
         reported := some featA } : MapState)
    else
      { selectedMarker := some featA, overlappingFeatures := [],
        selectedOverlapIndex := 0, reported := some featA })
    = ⟨some featA, [featA, featB], 0, some featA⟩
  rw [overlapGroup_twoColocated]
  rw [if_pos (by decide : ([featA, featB] : List Feature).length > 1)]
  decide

/-- Counterexample for C1: clicking marker B, the second of two co-located
features, reports the first co-located feature A (not the clicked
feature B) with current index 0, although B sits at position 1 of the
group; so the current index does not equal the position of the clicked
feature, and the reported selected feature is not the clicked one. -/
theorem handleMarkerClick_counterexample :
    (clickThenSync featB twoColocated initialMapState).reported = some featA ∧
    featA ≠ featB ∧
    (clickThenSync featB twoColocated initialMapState).selectedOverlapIndex = 0 ∧
    (twoColocated.findIdx? fun f => f = featB).getD 0 = 1 := by
  refine ⟨?_, by decide, ?_, by decide⟩
  · rw [clickThenSync_twoColocated]
  · rw [clickThenSync_twoColocated]

/-- C1 (amended): on a marker activation whose anchor coordinate is shared
within tolerance by more than one feature of the dataset, the resolver
enters Active with the overlap group equal to all co-located features in
dataset order, the current index 0, and the first member of the group
(not necessarily the clicked feature) as selected and reported feature;
position-of-F indexing only happens on external selection re-entry. -/
theorem handleMarkerClick_active_spec :
    ∀ (f : Feature) (data : List Feature) (st : MapState) (c : List ℚ),
      getMarkerCoordinates f.geometry = some c →
      (overlapGroup data c).length > 1 →
      handleMarkerClick f data st =
        ⟨(overlapGroup data c).head?, overlapGroup data c, 0,
          (overlapGroup data c).head?⟩ :=
  fun f data st c h1 h2 => handleMarkerClick_of_anchor f data st c h1 h2

/-- Witness for C1 (amended): clicking B in the concrete two-feature
scenario enters Active with the full co-located group, index 0 and the
group head as reported feature. -/
theorem handleMarkerClick_active_spec_witness :
    handleMarkerClick featB twoColocated initialMapState =
      ⟨(overlapGroup twoColocated [0, 0]).head?, overlapGroup twoColocated [0, 0], 0,
        (overlapGroup twoColocated [0, 0]).head?⟩ :=
  handleMarkerClick_active_spec featB twoColocated initialMapState [0, 0] rfl
    (by rw [overlapGroup_twoColocated]; decide)
